import Mathlib

/-!
Shallow embedding of the device command/session layer of pnp.py
(class PnPController) from the ender3pnp repository.

Modelling choices, all read off the source:
* A pyserial handle is modelled by the one attribute the program reads,
  `is_open`.  Opening a port yields an open handle; `close()` clears
  `is_open` when it succeeds and is modelled as leaving the handle
  untouched when it raises (the program swallows that exception).
* Nondeterministic environment outcomes (does `serial.Serial(...)` raise,
  does `write` raise, does `close` raise, what the exception message is)
  are passed to each operation as explicit parameters.
* Externally visible actions (opening a port at a baud rate, sleeping,
  writing bytes, closing) are recorded in an `events` trace; the payloads
  actually written to the transport are also collected in `written`.
* `log` collects the strings passed to PnPController.log.
* The step size only ever takes the four values 0.01, 0.1, 1.0, 10.0 mm
  (the UI offers no others).  It is stored here in integer thousandths of
  a millimetre (10, 100, 1000, 10000).  For these values the Python
  double representation rounds under percent-.3f formatting to exactly the
  decimal rendering of the rational value, so integer thousandths model
  the formatted output exactly.
-/

/-- The slice of a pyserial handle the program observes: `is_open`. -/
structure SerialPort where
  is_open : Bool
deriving Repr, DecidableEq

/-- Externally visible actions of the session layer. -/
inductive Event where
  | openPort (port : String) (baud : Nat)
  | sleepSec (n : Nat)
  | write (data : String)
  | closePort
deriving Repr, DecidableEq

/-- The session-layer fields of PnPController (pnp.py __init__), plus the
observation traces `log`, `events`, `written`. -/
structure PnPState where
  baud_rate : Nat
  serial_conn : Option SerialPort
  is_connected : Bool
  xy_speed : Nat
  z_speed : Nat
  step_size : Nat
  log : List String
  events : List Event
  written : List String
deriving Repr, DecidableEq

/-- PnPController.log: append the message to the log. -/
def logMsg (s : PnPState) (m : String) : PnPState :=
  { s with log := s.log ++ [m] }

/-- True when the serial handle is present and open. -/
def handleOpen (s : PnPState) : Bool :=
  match s.serial_conn with
  | some c => c.is_open
  | none => false

/-- PnPController.send_gcode (pnp.py lines 383-390).  Writes cmd plus a
newline when the handle is present and open; a raised write is caught and
logged.  `writeOk` tells whether the write raises, `errMsg` the exception
text. -/
def send_gcode (s : PnPState) (cmd : String) (writeOk : Bool) (errMsg : String) : PnPState :=
  match s.serial_conn with
  | some conn =>
      if conn.is_open then
        if writeOk then
          let full := cmd ++ "\n"
          logMsg { s with events := s.events ++ [Event.write full],
                          written := s.written ++ [full] } ("> " ++ cmd)
        else
          logMsg s ("Serial write error: " ++ errMsg)
      else s
  | none => s

/-- PnPController._kill_fans (pnp.py lines 167-170). -/
def kill_fans (s : PnPState) (writeOk : Bool) (errMsg : String) : PnPState :=
  logMsg (send_gcode s "M107" writeOk errMsg) "Sent M107 (Fans Off)"

/-- PnPController.emergency_stop (pnp.py lines 392-399).  Sends M112 via
send_gcode, logs, then sets is_connected to false; the button restyling is
UI-only and not modelled. -/
def emergency_stop (s : PnPState) (writeOk : Bool) (errMsg : String) : PnPState :=
  let s1 := send_gcode s "M112" writeOk errMsg
  let s2 := logMsg s1 "!!! EMERGENCY STOP !!!"
  { s2 with is_connected := false }

/-- Zero-pad a natural below 1000 to three digits. -/
def pad3 (n : Nat) : String :=
  if n < 10 then "00" ++ toString n
  else if n < 100 then "0" ++ toString n
  else toString n

/-- Python percent-.3f rendering of a signed amount given in exact
thousandths: sign, integer part, point, three digits. -/
def fmt3 (thousandths : Int) : String :=
  let sign := if thousandths < 0 then "-" else ""
  let a := thousandths.natAbs
  sign ++ toString (a / 1000) ++ "." ++ pad3 (a % 1000)

/-- The pure command construction inside PnPController.move (pnp.py lines
376-381): axis letter, signed distance to three decimals, feed rate chosen
from the Z or XY speed.  Distances are in thousandths. -/
def encode_move (axis : Char) (direction : Int) (stepThousandths : Nat)
    (xy_speed z_speed : Nat) : String :=
  let speed := if axis = 'Z' then z_speed else xy_speed
  "G0 " ++ String.singleton axis ++ fmt3 (direction * (stepThousandths : Int))
    ++ " F" ++ toString speed

/-- PnPController.move (pnp.py lines 376-381): returns unchanged unless
is_connected, otherwise sends the encoded jog command. -/
def move (s : PnPState) (axis : Char) (direction : Int)
    (writeOk : Bool) (errMsg : String) : PnPState :=
  if s.is_connected then
    send_gcode s (encode_move axis direction s.step_size s.xy_speed s.z_speed)
      writeOk errMsg
  else s

/-- Rendering of the four step sizes as Python prints them in the
set_step_size log line. -/
def stepRepr (v : Nat) : String :=
  if v = 10 then "0.01"
  else if v = 100 then "0.1"
  else if v = 1000 then "1.0"
  else if v = 10000 then "10.0"
  else toString v

/-- PnPController.set_step_size (pnp.py lines 172-179); the button
recolouring is UI-only and not modelled. -/
def set_step_size (s : PnPState) (v : Nat) : PnPState :=
  logMsg { s with step_size := v } ("Step Size: " ++ stepRepr v ++ "mm")

/-- The connect half of PnPController._toggle_connection (pnp.py lines
252-266), taken when is_connected is false.  `openOk` tells whether
serial.Serial raises; `writeOk` whether the G91 write raises. -/
def connect_branch (s : PnPState) (port : String)
    (openOk : Bool) (openErr : String) (writeOk : Bool) (writeErr : String) : PnPState :=
  if port = "" || port = "Scanning..." || port = "No USB Found" then
    logMsg s "No valid port selected!"
  else if openOk then
    let s1 := { s with serial_conn := some { is_open := true },
                       events := s.events ++ [Event.openPort port s.baud_rate] }
    let s2 := { s1 with events := s1.events ++ [Event.sleepSec 2] }
    let s3 := send_gcode s2 "G91" writeOk writeErr
    let s4 := logMsg s3 ("CONNECTED: " ++ port)
    { s4 with is_connected := true }
  else
    logMsg s ("Conn Error: " ++ openErr)

/-- The disconnect half of PnPController._toggle_connection (pnp.py lines
267-275), taken when is_connected is true.  close() on an open handle
clears is_open when it succeeds (`closeOk`); a raised close is swallowed
and leaves the handle as it was; close() on an already closed handle does
nothing. -/
def disconnect_branch (s : PnPState) (closeOk : Bool) : PnPState :=
  let s1 :=
    match s.serial_conn with
    | some c =>
        if c.is_open && closeOk then
          { s with serial_conn := some { is_open := false },
                   events := s.events ++ [Event.closePort] }
        else s
    | none => s
  logMsg { s1 with is_connected := false } "Disconnected"

/-- PnPController._toggle_connection (pnp.py lines 251-275). -/
def toggle_connection (s : PnPState) (port : String)
    (openOk : Bool) (openErr : String) (writeOk : Bool) (writeErr : String)
    (closeOk : Bool) : PnPState :=
  if s.is_connected then disconnect_branch s closeOk
  else connect_branch s port openOk openErr writeOk writeErr

/-- The session state right after PnPController.__init__ (pnp.py lines
24-59): baud 115200, no handle, disconnected, speeds 1500 and 300,
set_step_size(1.0) applied. -/
def initState : PnPState :=
  set_step_size
    { baud_rate := 115200, serial_conn := none, is_connected := false,
      xy_speed := 1500, z_speed := 300, step_size := 1000,
      log := [], events := [], written := [] } 1000

/-- A session operation the UI can trigger, with its environment
outcomes. -/
inductive Op where
  | toggle (port : String) (openOk : Bool) (openErr : String)
      (writeOk : Bool) (writeErr : String) (closeOk : Bool)
  | sendCmd (cmd : String) (writeOk : Bool) (errMsg : String)
  | estop (writeOk : Bool) (errMsg : String)
  | moveOp (axis : Char) (direction : Int) (writeOk : Bool) (errMsg : String)
  | fansOff (writeOk : Bool) (errMsg : String)
  | setStep (v : Nat)

/-- One operation applied to a state. -/
def stepOp (s : PnPState) : Op → PnPState
  | Op.toggle port oo oe wo we co => toggle_connection s port oo oe wo we co
  | Op.sendCmd cmd wo e => send_gcode s cmd wo e
  | Op.estop wo e => emergency_stop s wo e
  | Op.moveOp a d wo e => move s a d wo e
  | Op.fansOff wo e => kill_fans s wo e
  | Op.setStep v => set_step_size s v

/-- The state reached from startup by a list of operations. -/
def run (ops : List Op) : PnPState :=
  ops.foldl stepOp initState

/-- ASCII lowering of one character, as Python str.lower acts on the ASCII
device names this program sees. -/
def asciiLower (c : Char) : Char :=
  if 'A' ≤ c && c ≤ 'Z' then Char.ofNat (c.toNat + 32) else c

/-- str.lower on a device-name string (ASCII). -/
def strLower (s : String) : String :=
  String.mk (s.data.map asciiLower)

/-- Whether the first list is an initial segment of the second. -/
def beginsWith : List Char → List Char → Bool
  | [], _ => true
  | _ :: _, [] => false
  | n :: ns, h :: hs => n = h && beginsWith ns hs

/-- Python substring membership: the needle occurs contiguously in the
haystack. -/
def containsSub (needle : List Char) : List Char → Bool
  | [] => beginsWith needle []
  | h :: hs => beginsWith needle (h :: hs) || containsSub needle hs

/-- The per-port filter of the scan worker (pnp.py lines 213-218): keep the
port unless the lowered device name has bluetooth or wireless as a
substring. -/
def portClean (device : String) : Bool :=
  !containsSub "bluetooth".data (strLower device).data
    && !containsSub "wireless".data (strLower device).data

/-- The list the scan worker accumulates (pnp.py lines 207-218): the clean
devices, in enumeration order. -/
def filter_ports (ports : List String) : List String :=
  ports.filter portClean

/-- The port-scan state touched by start_port_scan and _refresh_ports:
the in-flight flag and the combobox contents. -/
structure ScanState where
  port_refreshing : Bool
  combo_values : List String
  combo_selection : String
  scan_log : List String
deriving Repr, DecidableEq

/-- One whole scan as _refresh_ports runs it (pnp.py lines 182-249),
sequentialised: the re-entrancy guard, the scanning placeholder, the worker
(enumeration result or caught enumeration error supplied as `enumRes`),
and the single scheduled update_ui delivery whose finally-block clears the
flag.  Returns the final state and how many result deliveries ran. -/
def refresh_ports (s : ScanState) (enumRes : Except String (List String)) :
    ScanState × Nat :=
  if s.port_refreshing then (s, 0)
  else
    let s1 := { s with port_refreshing := true,
                       combo_values := ["Scanning..."],
                       combo_selection := "Scanning..." }
    let s2 :=
      match enumRes with
      | Except.error e =>
          { s1 with scan_log := s1.scan_log ++ ["Scan error (worker): " ++ e] }
      | Except.ok _ => s1
    let clean :=
      match enumRes with
      | Except.error _ => []
      | Except.ok ports => filter_ports ports
    let s3 :=
      if clean.isEmpty then
        { s2 with combo_values := ["No USB Found"],
                  combo_selection := "No USB Found",
                  scan_log := s2.scan_log ++ ["No USB ports found."] }
      else
        { s2 with combo_values := clean,
                  combo_selection := clean.headD "",
                  scan_log := s2.scan_log
                    ++ ["Found " ++ toString clean.length ++ " device(s)."] }
    ({ s3 with port_refreshing := false }, 1)

/-! Helper lemmas about the transport operations. -/

theorem send_gcode_serial_conn (s : PnPState) (cmd : String) (w : Bool) (e : String) :
    (send_gcode s cmd w e).serial_conn = s.serial_conn := by
  cases hs : s.serial_conn with
  | none => simp [send_gcode, hs]
  | some c => cases hc : c.is_open <;> cases w <;> simp [send_gcode, hs, hc, logMsg]

theorem send_gcode_is_connected (s : PnPState) (cmd : String) (w : Bool) (e : String) :
    (send_gcode s cmd w e).is_connected = s.is_connected := by
  cases hs : s.serial_conn with
  | none => simp [send_gcode, hs]
  | some c => cases hc : c.is_open <;> cases w <;> simp [send_gcode, hs, hc, logMsg]

theorem send_gcode_written_eq (s : PnPState) (cmd : String) (w : Bool) (e : String) :
    (send_gcode s cmd w e).written =
      s.written ++ (if handleOpen s && w then [cmd ++ "\n"] else []) := by
  cases hs : s.serial_conn with
  | none => simp [send_gcode, handleOpen, hs]
  | some c => cases hc : c.is_open <;> cases w <;>
      simp [send_gcode, handleOpen, hs, hc, logMsg]

theorem send_gcode_events_eq (s : PnPState) (cmd : String) (w : Bool) (e : String) :
    (send_gcode s cmd w e).events =
      s.events ++ (if handleOpen s && w then [Event.write (cmd ++ "\n")] else []) := by
  cases hs : s.serial_conn with
  | none => simp [send_gcode, handleOpen, hs]
  | some c => cases hc : c.is_open <;> cases w <;>
      simp [send_gcode, handleOpen, hs, hc, logMsg]

theorem send_gcode_log_eq (s : PnPState) (cmd : String) (w : Bool) (e : String) :
    (send_gcode s cmd w e).log =
      s.log ++ (if handleOpen s then
        (if w then ["> " ++ cmd] else ["Serial write error: " ++ e]) else []) := by
  cases hs : s.serial_conn with
  | none => simp [send_gcode, handleOpen, hs]
  | some c => cases hc : c.is_open <;> cases w <;>
      simp [send_gcode, handleOpen, hs, hc, logMsg]

theorem send_gcode_of_not_open (s : PnPState) (cmd : String) (w : Bool) (e : String)
    (h : handleOpen s = false) : send_gcode s cmd w e = s := by
  cases hs : s.serial_conn with
  | none => simp [send_gcode, hs]
  | some c =>
      have hc : c.is_open = false := by simpa [handleOpen, hs] using h
      simp [send_gcode, hs, hc]

theorem handleOpen_send_gcode (s : PnPState) (cmd : String) (w : Bool) (e : String) :
    handleOpen (send_gcode s cmd w e) = handleOpen s := by
  unfold handleOpen
  rw [send_gcode_serial_conn]

theorem emergency_stop_is_connected (s : PnPState) (w : Bool) (e : String) :
    (emergency_stop s w e).is_connected = false := rfl

theorem emergency_stop_serial_conn (s : PnPState) (w : Bool) (e : String) :
    (emergency_stop s w e).serial_conn = s.serial_conn := by
  simp [emergency_stop, logMsg, send_gcode_serial_conn]

theorem emergency_stop_written (s : PnPState) (w : Bool) (e : String) :
    (emergency_stop s w e).written =
      s.written ++ (if handleOpen s && w then ["M112" ++ "\n"] else []) := by
  simp [emergency_stop, logMsg, send_gcode_written_eq]

theorem disconnect_branch_is_connected (s : PnPState) (co : Bool) :
    (disconnect_branch s co).is_connected = false := by
  cases hs : s.serial_conn with
  | none => simp [disconnect_branch, hs, logMsg]
  | some c =>
      by_cases h2 : (c.is_open && co) = true <;>
        simp [disconnect_branch, hs, h2, logMsg]

theorem connect_branch_inv (s : PnPState) (port oe we : String) (oo wo : Bool)
    (hs : s.is_connected = false) :
    (connect_branch s port oo oe wo we).is_connected = true →
      handleOpen (connect_branch s port oo oe wo we) = true := by
  by_cases hval : (port = "" || port = "Scanning..." || port = "No USB Found") = true
  · intro habs
    rw [connect_branch, if_pos hval] at habs
    simp [logMsg, hs] at habs
  · cases oo with
    | false =>
        intro habs
        rw [connect_branch, if_neg hval] at habs
        simp [logMsg, hs] at habs
    | true =>
        intro _
        rw [connect_branch, if_neg hval]
        simp only [if_true, handleOpen, logMsg, send_gcode_serial_conn]

theorem stepOp_conn_inv (s : PnPState) (o : Op)
    (h : s.is_connected = true → handleOpen s = true) :
    (stepOp s o).is_connected = true → handleOpen (stepOp s o) = true := by
  cases o with
  | toggle port oo oe wo we co =>
      cases hc : s.is_connected with
      | true =>
          intro habs
          rw [stepOp, toggle_connection, if_pos hc] at habs
          rw [disconnect_branch_is_connected] at habs
          exact absurd habs (by simp)
      | false =>
          rw [stepOp, toggle_connection, if_neg (by simp [hc])]
          exact connect_branch_inv s port oe we oo wo hc
  | sendCmd cmd wo e =>
      rw [stepOp, send_gcode_is_connected, handleOpen_send_gcode]
      exact h
  | estop wo e =>
      intro habs
      rw [stepOp, emergency_stop_is_connected] at habs
      exact absurd habs (by simp)
  | moveOp a d wo e =>
      rw [stepOp]
      unfold move
      cases hc : s.is_connected with
      | true =>
          rw [if_pos rfl, send_gcode_is_connected, handleOpen_send_gcode]
          exact h
      | false =>
          rw [if_neg (by simp)]
          exact h
  | fansOff wo e =>
      rw [stepOp]
      unfold kill_fans
      show (logMsg _ _).is_connected = true → handleOpen (logMsg _ _) = true
      simp only [logMsg, handleOpen]
      rw [show (send_gcode s "M107" wo e).serial_conn = s.serial_conn from
        send_gcode_serial_conn s "M107" wo e]
      simpa [handleOpen, send_gcode_is_connected] using h
  | setStep v =>
      simpa [stepOp, set_step_size, logMsg, handleOpen] using h

theorem foldl_conn_inv (ops : List Op) :
    ∀ s : PnPState, (s.is_connected = true → handleOpen s = true) →
      ((ops.foldl stepOp s).is_connected = true →
        handleOpen (ops.foldl stepOp s) = true) := by
  induction ops with
  | nil => intro s h; exact h
  | cons o os ih =>
      intro s h
      exact ih (stepOp s o) (stepOp_conn_inv s o h)

/-! Claim theorems. -/

/-- C1 (amended).  For every state reachable from startup by session
operations, if is_connected is true then the serial handle is present and
open.  The converse direction of the claimed iff is false: emergency_stop
clears is_connected while leaving the handle present and open (see the
counterexample). -/
theorem reachable_connected_handle_open (ops : List Op) :
    (run ops).is_connected = true → handleOpen (run ops) = true := by
  apply foldl_conn_inv
  intro habs
  exact absurd habs (by decide)

/-- Witness for C1: the state after one successful connect is connected and
its handle is open. -/
theorem reachable_connected_handle_open_witness :
    handleOpen (run [Op.toggle "COM3" true "" true "" true]) = true :=
  reachable_connected_handle_open [Op.toggle "COM3" true "" true "" true] (by decide)

/-- Counterexample for C1 as stated.  The state reached by a successful
connect followed by emergency_stop has is_connected false while the serial
handle is present and open, so is_connected is not equivalent to the handle
being present and open on every reachable state. -/
theorem reachable_connected_iff_open_fails :
    ¬ ((run [Op.toggle "COM3" true "" true "" true, Op.estop true ""]).is_connected = true
        ↔ handleOpen (run [Op.toggle "COM3" true "" true "" true, Op.estop true ""]) = true) := by
  decide

/-- C2 (amended).  emergency_stop always leaves is_connected false, and it
transmits the halt command M112 exactly when the serial handle is present
and open and the write does not raise, independently of the is_connected
flag. -/
theorem emergency_stop_disconnects_write_iff_open (s : PnPState) (w : Bool) (e : String) :
    (emergency_stop s w e).is_connected = false ∧
    (emergency_stop s w e).written =
      s.written ++ (if handleOpen s && w then ["M112" ++ "\n"] else []) :=
  ⟨emergency_stop_is_connected s w e, emergency_stop_written s w e⟩

/-- Counterexample for C2 as stated.  In the reachable state after a
successful connect followed by emergency_stop, the session is not
connected, yet a further emergency_stop still transmits M112. -/
theorem emergency_stop_sends_while_disconnected :
    (run [Op.toggle "COM3" true "" true "" true, Op.estop true ""]).is_connected = false ∧
    (emergency_stop (run [Op.toggle "COM3" true "" true "" true, Op.estop true ""]) true "").written
      = (run [Op.toggle "COM3" true "" true "" true, Op.estop true ""]).written
          ++ ["M112" ++ "\n"] := by
  decide

/-- C3 (amended).  send_gcode is a silent no-op unless the serial handle is
present and open; when it is, it writes the command with exactly one
appended newline terminator and logs it; a raised write is caught and
logged and neither the handle nor is_connected changes in any case. -/
theorem send_gcode_spec (s : PnPState) (cmd : String) (w : Bool) (e : String) :
    (handleOpen s = false → send_gcode s cmd w e = s) ∧
    (send_gcode s cmd w e).serial_conn = s.serial_conn ∧
    (send_gcode s cmd w e).is_connected = s.is_connected ∧
    (send_gcode s cmd w e).written =
      s.written ++ (if handleOpen s && w then [cmd ++ "\n"] else []) ∧
    (send_gcode s cmd w e).log =
      s.log ++ (if handleOpen s then
        (if w then ["> " ++ cmd] else ["Serial write error: " ++ e]) else []) :=
  ⟨send_gcode_of_not_open s cmd w e, send_gcode_serial_conn s cmd w e,
   send_gcode_is_connected s cmd w e, send_gcode_written_eq s cmd w e,
   send_gcode_log_eq s cmd w e⟩

/-- Witness for C3: in the startup state the handle is absent and a send is
a no-op, and on a connected state the command goes out with one newline. -/
theorem send_gcode_spec_witness :
    send_gcode initState "M107" true "" = initState :=
  (send_gcode_spec initState "M107" true "").1 (by decide)

/-- Counterexample for C3 as stated.  In the reachable state after a
successful connect followed by emergency_stop, the session is not
connected, yet send_gcode still writes the command to the transport. -/
theorem send_gcode_writes_while_disconnected :
    (run [Op.toggle "COM3" true "" true "" true, Op.estop true ""]).is_connected = false ∧
    (send_gcode (run [Op.toggle "COM3" true "" true "" true, Op.estop true ""]) "M107" true "").written
      = (run [Op.toggle "COM3" true "" true "" true, Op.estop true ""]).written
          ++ ["M107" ++ "\n"] := by
  decide

/-- C4.  Connecting from startup on a valid (non-sentinel) port: when the
open succeeds, the transport is opened at baud 115200, a 2-second settle
delay follows, the first and only transmission of the session is the G91
set-relative-positioning command, and is_connected ends true; when the
open raises, the error is logged, no event happens, and the session stays
disconnected with no handle. -/
theorem connect_success_trace (port oErr wErr : String) (w : Bool)
    (h1 : port ≠ "") (h2 : port ≠ "Scanning...") (h3 : port ≠ "No USB Found") :
    ((connect_branch initState port true oErr true wErr).is_connected = true ∧
     (connect_branch initState port true oErr true wErr).events =
       [Event.openPort port 115200, Event.sleepSec 2, Event.write ("G91" ++ "\n")] ∧
     (connect_branch initState port true oErr true wErr).written = ["G91" ++ "\n"]) ∧
    ((connect_branch initState port false oErr w wErr).is_connected = false ∧
     (connect_branch initState port false oErr w wErr).serial_conn = none ∧
     (connect_branch initState port false oErr w wErr).events = [] ∧
     (connect_branch initState port false oErr w wErr).log =
       initState.log ++ ["Conn Error: " ++ oErr]) := by
  have hval : (port = "" || port = "Scanning..." || port = "No USB Found") = false := by
    simp [h1, h2, h3]
  constructor
  · rw [connect_branch, if_neg (by simp [hval])]
    simp [send_gcode, logMsg, initState, set_step_size]
  · rw [connect_branch, if_neg (by simp [hval])]
    simp [logMsg, initState, set_step_size]

/-- Witness for C4 at the concrete port COM3. -/
theorem connect_success_trace_witness :
    (connect_branch initState "COM3" true "boom" true "werr").is_connected = true ∧
    (connect_branch initState "COM3" true "boom" true "werr").events =
      [Event.openPort "COM3" 115200, Event.sleepSec 2, Event.write ("G91" ++ "\n")] ∧
    (connect_branch initState "COM3" true "boom" true "werr").written = ["G91" ++ "\n"] :=
  (connect_success_trace "COM3" "boom" "werr" true (by decide) (by decide) (by decide)).1

/-- C5.  Connecting while disconnected with the empty string or either
sentinel placeholder is rejected: only the log changes, no event (hence no
transport open) happens, and the session stays disconnected. -/
theorem connect_sentinel_rejected (s : PnPState) (port oErr wErr : String)
    (oo wo co : Bool) (hs : s.is_connected = false)
    (hport : port = "" ∨ port = "Scanning..." ∨ port = "No USB Found") :
    toggle_connection s port oo oErr wo wErr co = logMsg s "No valid port selected!" ∧
    (toggle_connection s port oo oErr wo wErr co).serial_conn = s.serial_conn ∧
    (toggle_connection s port oo oErr wo wErr co).is_connected = false ∧
    (toggle_connection s port oo oErr wo wErr co).events = s.events ∧
    (toggle_connection s port oo oErr wo wErr co).written = s.written := by
  have hval : (port = "" || port = "Scanning..." || port = "No USB Found") = true := by
    rcases hport with h | h | h <;> simp [h]
  have : toggle_connection s port oo oErr wo wErr co = logMsg s "No valid port selected!" := by
    rw [toggle_connection, if_neg (by simp [hs]), connect_branch, if_pos hval]
  refine ⟨this, ?_, ?_, ?_, ?_⟩ <;> rw [this] <;> simp [logMsg, hs]

/-- Witness for C5: connecting from startup with the Scanning placeholder
leaves the startup session state intact. -/
theorem connect_sentinel_rejected_witness :
    toggle_connection initState "Scanning..." true "oe" true "we" true
      = logMsg initState "No valid port selected!" ∧
    (toggle_connection initState "Scanning..." true "oe" true "we" true).serial_conn
      = initState.serial_conn ∧
    (toggle_connection initState "Scanning..." true "oe" true "we" true).is_connected = false ∧
    (toggle_connection initState "Scanning..." true "oe" true "we" true).events
      = initState.events ∧
    (toggle_connection initState "Scanning..." true "oe" true "we" true).written
      = initState.written :=
  connect_sentinel_rejected initState "Scanning..." "oe" "we" true true true
    (by decide) (Or.inr (Or.inl rfl))

/-- The decimal rendering the specification asks of the distance field:
direction times step size written with exactly three decimal places, for
the four step sizes the UI offers (given in thousandths). -/
def specDistance (direction : Int) (stepThousandths : Nat) : String :=
  let mag :=
    if stepThousandths = 10 then "0.010"
    else if stepThousandths = 100 then "0.100"
    else if stepThousandths = 1000 then "1.000"
    else if stepThousandths = 10000 then "10.000"
    else ""
  if direction < 0 then "-" ++ mag else mag

/-- C6.  For every axis among X, Y, Z, every direction in {-1, +1} and
every step size in {0.01, 0.1, 1.0, 10.0} (thousandths 10, 100, 1000,
10000), the encoded move command carries the distance rendered to exactly
three decimal places and the feed rate is the Z feed for axis Z and the
XY feed for axes X and Y. -/
theorem encode_move_distance_feed (axis : Char) (d : Int) (st : Nat) (xy z : Nat)
    (ha : axis ∈ ['X', 'Y', 'Z']) (hd : d ∈ [(-1 : Int), 1])
    (hst : st ∈ [10, 100, 1000, 10000]) :
    encode_move axis d st xy z =
      "G0 " ++ String.singleton axis ++ specDistance d st ++ " F"
        ++ toString (if axis = 'Z' then z else xy) := by
  fin_cases ha <;> fin_cases hd <;> fin_cases hst <;> rfl

/-- Witness for C6, the scenario of the specification: a Z move of -0.1 at
Z feed 300 encodes the distance -0.100 and feed 300. -/
theorem encode_move_distance_feed_witness :
    encode_move 'Z' (-1) 100 1500 300 =
      "G0 " ++ String.singleton 'Z' ++ specDistance (-1) 100 ++ " F"
        ++ toString (if 'Z' = 'Z' then (300 : Nat) else 1500) :=
  encode_move_distance_feed 'Z' (-1) 100 1500 300 (by decide) (by decide) (by decide)

/-- C7.  Port discovery keeps exactly the enumerated devices whose lowered
name has neither bluetooth nor wireless as a substring, in enumeration
order (the filtered list is a sublist of the input), and the concrete
example of the specification filters as stated. -/
theorem filter_ports_spec (ports : List String) (d : String) :
    (d ∈ filter_ports ports ↔ d ∈ ports ∧ portClean d = true) ∧
    List.Sublist (filter_ports ports) ports ∧
    filter_ports ["usb-A", "Bluetooth-Serial-1", "COM3", "wireless-dbg"]
      = ["usb-A", "COM3"] := by
  refine ⟨?_, ?_, by decide⟩
  · simp [filter_ports, List.mem_filter]
  · exact List.filter_sublist ports

/-- C8.  One scan cycle, sequentialised: a call while the in-flight flag is
set changes nothing and delivers nothing; a started scan delivers exactly
one result and ends with the flag cleared; a failed enumeration still
delivers, as the zero-devices outcome. -/
theorem refresh_ports_spec (s : ScanState) (r : Except String (List String)) :
    (s.port_refreshing = true → refresh_ports s r = (s, 0)) ∧
    (s.port_refreshing = false →
      (refresh_ports s r).2 = 1 ∧ (refresh_ports s r).1.port_refreshing = false) ∧
    (s.port_refreshing = false → ∀ e : String, r = Except.error e →
      (refresh_ports s r).1.combo_values = ["No USB Found"] ∧
      (refresh_ports s r).1.combo_selection = "No USB Found") := by
  refine ⟨?_, ?_, ?_⟩
  · intro h
    unfold refresh_ports
    rw [if_pos h]
  · intro h
    unfold refresh_ports
    rw [if_neg (by simp [h])]
    constructor <;> rfl
  · intro h e hr
    subst hr
    unfold refresh_ports
    rw [if_neg (by simp [h])]
    simp

/-- Witness for C8: from an idle scan state, a scan whose enumeration
fails still delivers once and clears the flag. -/
theorem refresh_ports_spec_witness :
    (refresh_ports ⟨false, [], "", []⟩ (Except.error "boom")).2 = 1 ∧
    (refresh_ports ⟨false, [], "", []⟩ (Except.error "boom")).1.port_refreshing = false :=
  (refresh_ports_spec ⟨false, [], "", []⟩ (Except.error "boom")).2.1 rfl

/-- C9.  The disconnect branch always ends with is_connected false for any
close outcome; it closes the transport when the handle is open and close
succeeds; afterwards the handle is not open; and run on an
already-disconnected session (handle absent or closed) it changes nothing
but the log. -/
theorem disconnect_spec (s : PnPState) (closeOk : Bool) :
    (disconnect_branch s closeOk).is_connected = false ∧
    (∀ c : SerialPort, s.serial_conn = some c → c.is_open = true → closeOk = true →
      (disconnect_branch s closeOk).serial_conn = some { is_open := false }) ∧
    (closeOk = true → handleOpen (disconnect_branch s closeOk) = false) ∧
    (handleOpen s = false →
      (disconnect_branch s closeOk).serial_conn = s.serial_conn ∧
      (disconnect_branch s closeOk).events = s.events ∧
      (disconnect_branch s closeOk).written = s.written) := by
  refine ⟨disconnect_branch_is_connected s closeOk, ?_, ?_, ?_⟩
  · intro c hc hopen hclose
    subst hclose
    simp [disconnect_branch, hc, hopen, logMsg]
  · intro hclose
    subst hclose
    cases hs : s.serial_conn with
    | none => simp [disconnect_branch, hs, logMsg, handleOpen]
    | some c =>
        cases hc : c.is_open <;>
          simp [disconnect_branch, hs, hc, logMsg, handleOpen]
  · intro h
    cases hs : s.serial_conn with
    | none => simp [disconnect_branch, hs, logMsg]
    | some c =>
        have hc : c.is_open = false := by simpa [handleOpen, hs] using h
        simp [disconnect_branch, hs, hc, logMsg]

/-- Witness for C9: disconnecting twice from a connected state, the second
call leaves the handle, the events and the writes exactly as the first
left them. -/
theorem disconnect_spec_witness :
    (disconnect_branch (disconnect_branch (run [Op.toggle "COM3" true "" true "" true]) true) true).serial_conn
      = (disconnect_branch (run [Op.toggle "COM3" true "" true "" true]) true).serial_conn ∧
    (disconnect_branch (disconnect_branch (run [Op.toggle "COM3" true "" true "" true]) true) true).events
      = (disconnect_branch (run [Op.toggle "COM3" true "" true "" true]) true).events ∧
    (disconnect_branch (disconnect_branch (run [Op.toggle "COM3" true "" true "" true]) true) true).written
      = (disconnect_branch (run [Op.toggle "COM3" true "" true "" true]) true).written :=
  (disconnect_spec (disconnect_branch (run [Op.toggle "COM3" true "" true "" true]) true) true).2.2.2
    (by decide)

theorem send_gcode_frame_fields (s : PnPState) (cmd : String) (w : Bool) (e : String) :
    (send_gcode s cmd w e).baud_rate = s.baud_rate ∧
    (send_gcode s cmd w e).xy_speed = s.xy_speed ∧
    (send_gcode s cmd w e).z_speed = s.z_speed ∧
    (send_gcode s cmd w e).step_size = s.step_size := by
  cases hs : s.serial_conn with
  | none => simp [send_gcode, hs]
  | some c => cases hc : c.is_open <;> cases w <;> simp [send_gcode, hs, hc, logMsg]

theorem handleOpen_emergency_stop (s : PnPState) (w : Bool) (e : String) :
    handleOpen (emergency_stop s w e) = handleOpen s := by
  unfold handleOpen
  rw [emergency_stop_serial_conn]

/-- C10.  emergency_stop never touches the serial handle or the
configuration fields: the transport stays present and open when it was,
and even though is_connected is then false, a subsequent send (for
example the fan-off command M107) still writes to the transport. -/
theorem emergency_stop_frame (s : PnPState) (w : Bool) (e e2 : String) :
    (emergency_stop s w e).serial_conn = s.serial_conn ∧
    (emergency_stop s w e).baud_rate = s.baud_rate ∧
    (emergency_stop s w e).xy_speed = s.xy_speed ∧
    (emergency_stop s w e).z_speed = s.z_speed ∧
    (emergency_stop s w e).step_size = s.step_size ∧
    (handleOpen s = true →
      handleOpen (emergency_stop s w e) = true ∧
      (emergency_stop s w e).is_connected = false ∧
      (send_gcode (emergency_stop s w e) "M107" true e2).written
        = (emergency_stop s w e).written ++ ["M107" ++ "\n"]) := by
  have hfields := send_gcode_frame_fields s "M112" w e
  refine ⟨emergency_stop_serial_conn s w e, ?_, ?_, ?_, ?_, ?_⟩
  · simpa [emergency_stop, logMsg] using hfields.1
  · simpa [emergency_stop, logMsg] using hfields.2.1
  · simpa [emergency_stop, logMsg] using hfields.2.2.1
  · simpa [emergency_stop, logMsg] using hfields.2.2.2
  · intro hopen
    have h1 : handleOpen (emergency_stop s w e) = true := by
      rw [handleOpen_emergency_stop]; exact hopen
    refine ⟨h1, emergency_stop_is_connected s w e, ?_⟩
    rw [send_gcode_written_eq, h1]
    simp

/-- Witness for C10: after connect then emergency stop, the handle is still
open and the fan-off command still reaches the transport. -/
theorem emergency_stop_frame_witness :
    handleOpen (emergency_stop (run [Op.toggle "COM3" true "" true "" true]) true "") = true ∧
    (emergency_stop (run [Op.toggle "COM3" true "" true "" true]) true "").is_connected = false ∧
    (send_gcode (emergency_stop (run [Op.toggle "COM3" true "" true "" true]) true "") "M107" true "x").written
      = (emergency_stop (run [Op.toggle "COM3" true "" true "" true]) true "").written
          ++ ["M107" ++ "\n"] :=
  (emergency_stop_frame (run [Op.toggle "COM3" true "" true "" true]) true "" "x").2.2.2.2.2
    (by decide)
